import Mathlib

/-!
Verification of the triangular-arbitrage execution engine in src/go/main.go.

The Go program reads an arbitrage signal from a queue, dispatches three
concurrent market orders when the profit rate clears a threshold, aggregates
the per-leg outcomes under a 500 ms deadline, and on failure runs a
cancel-or-reverse rollback over the per-leg results.

The shallow embedding below translates the pure decision logic of main.go:
quantity computation from the signal snapshot, the order-placement result
mapping, the rollback loop with its reversal retry, the success-aggregation
select loop, and the top of the signal loop.  External effects (HTTP calls,
Redis reads, sleeps, stdout prints to the extent they matter, Slack posts)
are represented as explicit action traces or as oracle parameters supplying
the outcome of each external call.  Go float64 arithmetic is idealised as
exact rationals extended with signed infinity and NaN (GoFloat below): the
divisions the program performs follow IEEE-754 special-value rules, with
rounding of finite results elided.
-/

namespace Arb

/-- Idealised Go float64: an exact rational, a signed infinity, or NaN.
Finite arithmetic is exact (rounding elided); the special values follow
IEEE-754, which is what Go float64 division by zero produces. -/
inductive GoFloat where
  | fin (q : ℚ)
  | inf (pos : Bool)
  | nan
deriving DecidableEq, Repr

/-- Go float64 division, with IEEE-754 special-value rules: a nonzero finite
number divided by (positive) zero is a signed infinity, 0/0 and Inf/Inf are
NaN, a finite number divided by an infinity is zero. -/
def GoFloat.div : GoFloat → GoFloat → GoFloat
  | .nan, _ => .nan
  | _, .nan => .nan
  | .fin a, .fin b =>
      if b = 0 then (if a = 0 then .nan else .inf (decide (0 < a)))
      else .fin (a / b)
  | .fin _, .inf _ => .fin 0
  | .inf p, .fin b => .inf (p = decide (0 ≤ b))
  | .inf _, .inf _ => .nan

/-- Go float64 multiplication with IEEE-754 special-value rules. -/
def GoFloat.mul : GoFloat → GoFloat → GoFloat
  | .nan, _ => .nan
  | _, .nan => .nan
  | .fin a, .fin b => .fin (a * b)
  | .fin a, .inf p => if a = 0 then .nan else .inf (p = decide (0 < a))
  | .inf p, .fin b => if b = 0 then .nan else .inf (p = decide (0 < b))
  | .inf p, .inf q => .inf (p = q)

/-- The Go comparison `x > 0` on float64: false for NaN, true for +Inf. -/
def GoFloat.gt0 : GoFloat → Bool
  | .fin a => decide (0 < a)
  | .inf p => p
  | .nan => false

/-- The OrderResponse struct of main.go: orderId, status, symbol, side,
executedQty (field Quantity) and price, the two numeric fields parsed from
the exchange's string-encoded decimals. -/
structure OrderResponse where
  orderID : Int
  status : String
  symbol : String
  side : String
  quantity : GoFloat
  price : GoFloat
deriving DecidableEq, Repr

/-- The Signal struct of main.go: prices keyed by pair symbol, profit rate,
and direction.  The price map is a association list; Go map reads of a
missing key yield the zero value, which priceOf reproduces. -/
structure Signal where
  prices : List (String × GoFloat)
  profitRate : ℚ
  direction : String
deriving DecidableEq, Repr

/-- A Go map read prices[sym]: the stored value, or float64 zero when the
key is absent (Go's zero-value semantics for map access). -/
def priceOf (prices : List (String × GoFloat)) (sym : String) : GoFloat :=
  (prices.lookup sym).getD (GoFloat.fin 0)

/-- One leg order as dispatched by main: symbol, side and quantity.  The
order type is always MARKET (placeOrder hard-codes type=MARKET). -/
structure LegSpec where
  symbol : String
  side : String
  quantity : GoFloat
deriving DecidableEq, Repr

/-- The three leg orders main.go dispatches for a signal (lines 204-242).
Direction 順方向 (forward): buy BTCUSDT with 100000/prices[BTC/USDT], buy
ETHBTC and sell ETHUSDT with that quantity divided by prices[ETH/BTC].
Any other direction string takes the else branch: buy ETHUSDT with
100000/prices[ETH/USDT], sell ETHBTC and BTCUSDT with that quantity
multiplied by prices[ETH/BTC].  Legs 2 and 3 recompute the same expression;
being pure it equals the shared value used here. -/
def legSpecs (sig : Signal) : List LegSpec :=
  if sig.direction = "順方向" then
    let q1 := GoFloat.div (GoFloat.fin 100000) (priceOf sig.prices "BTC/USDT")
    let q2 := GoFloat.div q1 (priceOf sig.prices "ETH/BTC")
    [⟨"BTCUSDT", "BUY", q1⟩, ⟨"ETHBTC", "BUY", q2⟩, ⟨"ETHUSDT", "SELL", q2⟩]
  else
    let q1 := GoFloat.div (GoFloat.fin 100000) (priceOf sig.prices "ETH/USDT")
    let q2 := GoFloat.mul q1 (priceOf sig.prices "ETH/BTC")
    [⟨"ETHUSDT", "BUY", q1⟩, ⟨"ETHBTC", "SELL", q2⟩, ⟨"BTCUSDT", "SELL", q2⟩]

/-- The outcome of the HTTP round trip inside placeOrder: either the
transport fails (client.Do returns an error) or a response with some status
code and body is received. -/
inductive HTTPOutcome where
  | transportError (msg : String)
  | response (statusCode : Nat) (body : String)
deriving DecidableEq, Repr

/-- The zero value of OrderResponse, what json.NewDecoder.Decode leaves in
the struct when the body does not decode. -/
def zeroOrder : OrderResponse :=
  ⟨0, "", "", "", GoFloat.fin 0, GoFloat.fin 0⟩

/-- placeOrder (main.go lines 64-88), abstracted over the JSON decoder and
the HTTP outcome.  The Go code returns the transport error when client.Do
fails; otherwise it decodes the body into a fresh OrderResponse, IGNORING
the Decode error and NEVER inspecting resp.StatusCode, and returns the
(possibly zero-valued) struct with a nil error. -/
def placeOrder (decodeBody : String → Option OrderResponse) :
    HTTPOutcome → Except String OrderResponse
  | .transportError msg => .error msg
  | .response _ body => .ok ((decodeBody body).getD zeroOrder)

/-- Whether an Except result carries no error, i.e. the Go err == nil test. -/
def exceptOk : Except String OrderResponse → Bool
  | .ok _ => true
  | .error _ => false

/-- The observable external actions of the rollback phase: a cancel request,
a market-order placement (placeOrder always sends type=MARKET), a sleep in
milliseconds, and a Slack notification.  Stdout prints are elided. -/
inductive Action where
  | cancel (orderID : Int) (symbol : String)
  | place (symbol side otype : String) (qty : GoFloat)
  | sleep (ms : Nat)
  | notify (msg : String)
deriving DecidableEq, Repr

def Action.isCancel : Action → Bool
  | .cancel _ _ => true
  | _ => false

def Action.isPlace : Action → Bool
  | .place _ _ _ _ => true
  | _ => false

def Action.isNotify : Action → Bool
  | .notify _ => true
  | _ => false

def Action.isSleep : Action → Bool
  | .sleep _ => true
  | _ => false

/-- The compensating side main.go uses for a reversal (lines 123-126):
SELL, except the hard-coded special case symbol ETHUSDT where it is BUY
(the comment in the source reads ETH/USDT は逆, the mirrored pair). -/
def rollbackSide (symbol : String) : String :=
  if symbol = "ETHUSDT" then "BUY" else "SELL"

/-- The reversal retry loop of rollback (main.go lines 127-137), with the
outcome of the i-th placeOrder call supplied by the oracle re.  Each
iteration places the reversal order; the Go code binds the result to _ and
tests ONLY the error: on err == nil it sets success and breaks, otherwise
it prints and sleeps one second before the next attempt.  Returns the
success flag and the action trace; fuel is the remaining retry budget
(3 at the top call). -/
def reversalLoop (re : Nat → Except String OrderResponse)
    (symbol side : String) (qty : GoFloat) : Nat → Nat → Bool × List Action
  | 0, _ => (false, [])
  | fuel + 1, i =>
      match re i with
      | .ok _ => (true, [Action.place symbol side "MARKET" qty])
      | .error _ =>
          let rest := reversalLoop re symbol side qty fuel (i + 1)
          (rest.1, Action.place symbol side "MARKET" qty :: Action.sleep 1000 :: rest.2)

/-- One iteration of the rollback loop (main.go lines 112-142) for one slot
of the orders slice.  A nil slot is skipped (continue).  A present order
with status different from FILLED gets one cancelOrder call, whose failure
(oracle cancelErr) adds the cancel-error Slack notification.  A FILLED
order with side BUY and positive quantity gets the reversal retry loop,
followed by the reversal-error notification when all attempts failed.  Any
other present order (in particular FILLED with side SELL) gets nothing. -/
def compensateOrder (cancelErr : Int → String → Bool)
    (re : Nat → Except String OrderResponse) :
    Option OrderResponse → List Action
  | none => []
  | some o =>
      if o.status ≠ "FILLED" then
        Action.cancel o.orderID o.symbol ::
          (if cancelErr o.orderID o.symbol
           then [Action.notify "ロールバック失敗: キャンセルエラー"] else [])
      else if o.side = "BUY" ∧ o.quantity.gt0 = true then
        let r := reversalLoop re o.symbol (rollbackSide o.symbol) o.quantity 3 0
        r.2 ++ (if r.1 then [] else [Action.notify "ロールバック失敗: 反対売買エラー"])
      else []

/-- The rollback loop over the orders slice, one trace per slot, the leg at
index i drawing its placeOrder outcomes from oracle re i.  The parameter k
is the index of the first slot (0 at the top call). -/
def rollbackTracesFrom (cancelErr : Int → String → Bool)
    (re : Nat → Nat → Except String OrderResponse) :
    Nat → List (Option OrderResponse) → List (List Action)
  | _, [] => []
  | k, o :: rest =>
      compensateOrder cancelErr (re k) o :: rollbackTracesFrom cancelErr re (k + 1) rest

/-- Per-slot action traces of rollback(orders). -/
def rollbackTraces (cancelErr : Int → String → Bool)
    (re : Nat → Nat → Except String OrderResponse)
    (orders : List (Option OrderResponse)) : List (List Action) :=
  rollbackTracesFrom cancelErr re 0 orders

/-- rollback (main.go lines 111-143): the flat action trace, the slots
processed in order. -/
def rollback (cancelErr : Int → String → Bool)
    (re : Nat → Nat → Except String OrderResponse)
    (orders : List (Option OrderResponse)) : List Action :=
  (rollbackTraces cancelErr re orders).flatten

/-- The success-aggregation select loop (main.go lines 244-259).  avail
lists, in arrival order, the per-leg booleans that are ever sent on the
success channel (a leg whose placeOrder call never returns sends nothing).
The loop runs three iterations; each consumes the next available success
value if any, else the single time.After event if it has not fired yet,
else it blocks forever (time.After delivers exactly once).  Returns some
allSuccess when the loop completes, none when it blocks.  acc is
allSuccess, tUsed records that the timeout event was consumed. -/
def aggregateGo (avail : List Bool) (acc tUsed : Bool) : Nat → Option Bool
  | 0 => some acc
  | n + 1 =>
      match avail with
      | b :: rest => aggregateGo rest (acc && b) tUsed n
      | [] => if tUsed then none else aggregateGo [] false true n

/-- The aggregation outcome for a run in which exactly the values of avail
arrive on the success channel. -/
def aggregate (avail : List Bool) : Option Bool :=
  aggregateGo avail true false 3

/-- The result of the Redis read at the top of the signal loop (main.go
lines 184-192): redis.Nil (empty queue), another error, or a value. -/
inductive QueueRead where
  | nilResult
  | readError (msg : String)
  | value (payload : String)
deriving DecidableEq, Repr

/-- Observable steps of one signal-loop iteration: a sleep, a log line, the
invocation of the leg orchestrator with the computed leg specs, or the
idle (profit too low) branch. -/
inductive LoopStep where
  | sleepMs (n : Nat)
  | logMsg (m : String)
  | execute (legs : List LegSpec)
  | idle
deriving DecidableEq, Repr

/-- One iteration of the signal loop (main.go lines 183-273), up to the
dispatch decision.  redis.Nil sleeps 50 ms and continues; any other read
error logs and continues IMMEDIATELY (the continue skips the bottom-of-loop
sleep); a value is parsed (json.Unmarshal never panics; parse is the
abstracted decoder, yielding the zero-value Signal on bad payloads) and the
legs are dispatched only when profit rate exceeds 0.1, followed by the
bottom-of-loop 50 ms sleep. -/
def signalIteration (read : QueueRead) (parse : String → Signal) : List LoopStep :=
  match read with
  | .nilResult => [.sleepMs 50]
  | .readError _ => [.logMsg "Redisエラー"]
  | .value s =>
      let sig := parse s
      (if (1 / 10 : ℚ) < sig.profitRate then [.execute (legSpecs sig)] else [.idle])
        ++ [.sleepMs 50]

/-- Whether a loop step is a sleep. -/
def LoopStep.isSleep : LoopStep → Bool
  | .sleepMs _ => true
  | _ => false

/-- The legs dispatched during an iteration trace. -/
def dispatchedLegs (steps : List LoopStep) : List LegSpec :=
  steps.foldr (fun st acc =>
    match st with
    | .execute legs => legs ++ acc
    | _ => acc) []

/-! Concrete values used by witnesses and counterexamples. -/

/-- Oracle: every cancelOrder call succeeds. -/
def noCancelErr : Int → String → Bool := fun _ _ => false

/-- Oracle: every reversal placeOrder call fails at the transport level. -/
def allRevFail : Nat → Nat → Except String OrderResponse :=
  fun _ _ => Except.error "network"

/-- A FILLED BUY leg result with executed quantity 2. -/
def oFilledBuy : OrderResponse :=
  ⟨7, "FILLED", "BTCUSDT", "BUY", GoFloat.fin 2, GoFloat.fin 0⟩

/-- An order whose exchange response reports status REJECTED. -/
def oRejected : OrderResponse :=
  ⟨8, "REJECTED", "BTCUSDT", "SELL", GoFloat.fin 0, GoFloat.fin 0⟩

/-- Oracle for one leg: the first two placeOrder calls fail at the transport
level, the third returns (with a REJECTED response body). -/
def twoFail : Nat → Except String OrderResponse :=
  fun i => if i < 2 then Except.error "network" else Except.ok oRejected

/-- Oracle for one leg: every placeOrder call fails at the transport level. -/
def allFail : Nat → Except String OrderResponse := fun _ => Except.error "network"

/-- Oracle for one leg: every placeOrder call returns, without transport
error, a response whose status is REJECTED. -/
def allOkRejected : Nat → Except String OrderResponse := fun _ => Except.ok oRejected

/-- A FILLED leg result whose side is SELL. -/
def oFilledSell : OrderResponse :=
  ⟨9, "FILLED", "ETHUSDT", "SELL", GoFloat.fin 2, GoFloat.fin 0⟩

/-- A second FILLED BUY leg result. -/
def oFilled2 : OrderResponse :=
  ⟨11, "FILLED", "ETHBTC", "BUY", GoFloat.fin 40, GoFloat.fin 0⟩

/-- A signal whose prices map is empty, with profit rate 1 and the forward
direction. -/
def sigNoPrices : Signal := ⟨[], 1, "順方向"⟩

/-- A parser returning sigNoPrices for every payload. -/
def parseNoPrices : String → Signal := fun _ => sigNoPrices

/-- The signal of the quantity-computation example: prices 50000 for
BTC/USDT and 0.05 for ETH/BTC, forward direction. -/
def sigC8 : Signal :=
  ⟨[("BTC/USDT", GoFloat.fin 50000), ("ETH/BTC", GoFloat.fin (1 / 20))], 1, "順方向"⟩

lemma gt0_fin_two : (GoFloat.fin 2).gt0 = true := by
  norm_num [GoFloat.gt0]

/-! Helper lemmas about the reversal retry loop. -/

lemma exceptOk_false_iff (r : Except String OrderResponse) :
    exceptOk r = false ↔ ∃ m, r = Except.error m := by
  cases r <;> simp [exceptOk]

lemma exceptOk_true_iff (r : Except String OrderResponse) :
    exceptOk r = true ↔ ∃ o, r = Except.ok o := by
  cases r <;> simp [exceptOk]

/-- The reversal retry loop over the full budget of 3 attempts succeeds
exactly when one of the first three placeOrder calls returns without a
transport error; the contents of the returned OrderResponse are never
consulted. -/
lemma reversalLoop_fst (re : Nat → Except String OrderResponse)
    (symbol side : String) (qty : GoFloat) :
    (reversalLoop re symbol side qty 3 0).1
      = (exceptOk (re 0) || exceptOk (re 1) || exceptOk (re 2)) := by
  cases h0 : re 0 <;> cases h1 : re 1 <;> cases h2 : re 2 <;>
    simp [reversalLoop, exceptOk, h0, h1, h2]

/-- Every action the reversal retry loop emits is either the reversal order
placement itself or the one-second backoff sleep. -/
lemma reversalLoop_mem (re : Nat → Except String OrderResponse)
    (symbol side : String) (qty : GoFloat) :
    ∀ fuel i, ∀ a ∈ (reversalLoop re symbol side qty fuel i).2,
      a = Action.place symbol side "MARKET" qty ∨ a = Action.sleep 1000 := by
  intro fuel
  induction fuel with
  | zero => intro i a ha; simp [reversalLoop] at ha
  | succ n ih =>
      intro i a ha
      cases h : re i with
      | ok r =>
          simp [reversalLoop, h] at ha
          exact Or.inl ha
      | error m =>
          simp [reversalLoop, h] at ha
          rcases ha with ha | ha | ha
          · exact Or.inl ha
          · exact Or.inr ha
          · exact ih (i + 1) a ha

/-- The reversal retry loop makes at most fuel placement attempts, and at
least one when the budget is positive. -/
lemma reversalLoop_placeCount (re : Nat → Except String OrderResponse)
    (symbol side : String) (qty : GoFloat) :
    ∀ fuel i,
      (reversalLoop re symbol side qty fuel i).2.countP Action.isPlace ≤ fuel ∧
      (1 ≤ fuel →
        1 ≤ (reversalLoop re symbol side qty fuel i).2.countP Action.isPlace) := by
  intro fuel
  induction fuel with
  | zero => intro i; simp [reversalLoop]
  | succ n ih =>
      intro i
      cases h : re i with
      | ok r => simp [reversalLoop, h, List.countP_cons, Action.isPlace]
      | error m =>
          obtain ⟨hle, hpos⟩ := ih (i + 1)
          constructor
          · simp [reversalLoop, h, List.countP_cons, Action.isPlace]
            omega
          · intro _
            simp [reversalLoop, h, List.countP_cons, Action.isPlace]

/-- The reversal retry loop emits no notification and no cancel. -/
lemma reversalLoop_no_notify_cancel (re : Nat → Except String OrderResponse)
    (symbol side : String) (qty : GoFloat) (fuel i : Nat) :
    (reversalLoop re symbol side qty fuel i).2.countP Action.isNotify = 0 ∧
    (reversalLoop re symbol side qty fuel i).2.filter Action.isCancel = [] := by
  constructor
  · rw [List.countP_eq_zero]
    intro a ha
    rcases reversalLoop_mem re symbol side qty fuel i a ha with h | h <;>
      simp [h, Action.isNotify]
  · rw [List.filter_eq_nil_iff]
    intro a ha
    rcases reversalLoop_mem re symbol side qty fuel i a ha with h | h <;>
      simp [h, Action.isCancel]

/-- The trace of compensateOrder on a FILLED BUY leg with positive quantity:
the reversal loop trace, plus the reversal-error notification when every
attempt failed. -/
lemma compensateOrder_filledBuy (ce : Int → String → Bool)
    (re : Nat → Except String OrderResponse) (o : OrderResponse)
    (hs : o.status = "FILLED") (hb : o.side = "BUY") (hq : o.quantity.gt0 = true) :
    compensateOrder ce re (some o) =
      (reversalLoop re o.symbol (rollbackSide o.symbol) o.quantity 3 0).2 ++
        (if (reversalLoop re o.symbol (rollbackSide o.symbol) o.quantity 3 0).1
         then [] else [Action.notify "ロールバック失敗: 反対売買エラー"]) := by
  simp [compensateOrder, hs, hb, hq]

/-- C5: for every FILLED leg on the opening side (BUY), every compensating
order the rollback issues for that leg is a market order for the same
quantity as the leg's executed quantity, on the side given by the mirrored
pair convention: SELL (the opposite of BUY) for every symbol except the
inverted-orientation pair ETHUSDT, where it is BUY; and at least one such
order is issued when the side is BUY and the quantity is positive. -/
theorem c5_reversal_order (ce : Int → String → Bool)
    (re : Nat → Except String OrderResponse) (o : OrderResponse)
    (hs : o.status = "FILLED") :
    (∀ a ∈ compensateOrder ce re (some o), a.isPlace = true →
        a = Action.place o.symbol (rollbackSide o.symbol) "MARKET" o.quantity) ∧
    (o.side = "BUY" → o.quantity.gt0 = true →
        1 ≤ (compensateOrder ce re (some o)).countP Action.isPlace) ∧
    rollbackSide "ETHUSDT" = "BUY" ∧ rollbackSide "BTCUSDT" = "SELL" ∧
    rollbackSide "ETHBTC" = "SELL" := by
  refine ⟨?_, ?_, by simp [rollbackSide], by simp [rollbackSide], by simp [rollbackSide]⟩
  · intro a ha hp
    by_cases hc : o.side = "BUY" ∧ o.quantity.gt0 = true
    · rw [compensateOrder_filledBuy ce re o hs hc.1 hc.2] at ha
      rcases List.mem_append.mp ha with h | h
      · rcases reversalLoop_mem re o.symbol (rollbackSide o.symbol) o.quantity 3 0 a h
          with h | h
        · exact h
        · rw [h] at hp; simp [Action.isPlace] at hp
      · by_cases hr : (reversalLoop re o.symbol (rollbackSide o.symbol) o.quantity 3 0).1
        · simp [hr] at h
        · simp [hr] at h
          rw [h] at hp; simp [Action.isPlace] at hp
    · simp [compensateOrder, hs, hc] at ha
  · intro hb hq
    rw [compensateOrder_filledBuy ce re o hs hb hq, List.countP_append]
    have h1 := (reversalLoop_placeCount re o.symbol (rollbackSide o.symbol)
      o.quantity 3 0).2 (by norm_num)
    omega

/-- C5 witness: the general theorem applied to a concrete FILLED BUY leg. -/
theorem c5_reversal_order_witness :
    oFilledBuy.status = "FILLED" ∧
    ((∀ a ∈ compensateOrder noCancelErr allFail (some oFilledBuy), a.isPlace = true →
        a = Action.place oFilledBuy.symbol (rollbackSide oFilledBuy.symbol) "MARKET"
              oFilledBuy.quantity) ∧
     (oFilledBuy.side = "BUY" → oFilledBuy.quantity.gt0 = true →
        1 ≤ (compensateOrder noCancelErr allFail (some oFilledBuy)).countP Action.isPlace) ∧
     rollbackSide "ETHUSDT" = "BUY" ∧ rollbackSide "BTCUSDT" = "SELL" ∧
     rollbackSide "ETHBTC" = "SELL") :=
  ⟨rfl, c5_reversal_order noCancelErr allFail oFilledBuy rfl⟩

/-- C6: for a FILLED BUY leg, a reversal whose placement fails twice and
returns without error on the third attempt produces exactly three placement
attempts separated by one-second sleeps and no notification, while a
reversal all three of whose attempts fail produces exactly three placement
attempts and exactly one reversal-error notification, with no fourth
attempt. -/
theorem c6_reversal_retry (ce : Int → String → Bool)
    (re1 re2 : Nat → Except String OrderResponse) (o : OrderResponse)
    (hs : o.status = "FILLED") (hb : o.side = "BUY") (hq : o.quantity.gt0 = true) :
    ((exceptOk (re1 0) = false ∧ exceptOk (re1 1) = false ∧ exceptOk (re1 2) = true) →
      compensateOrder ce re1 (some o) =
        [Action.place o.symbol (rollbackSide o.symbol) "MARKET" o.quantity,
         Action.sleep 1000,
         Action.place o.symbol (rollbackSide o.symbol) "MARKET" o.quantity,
         Action.sleep 1000,
         Action.place o.symbol (rollbackSide o.symbol) "MARKET" o.quantity]) ∧
    ((exceptOk (re2 0) = false ∧ exceptOk (re2 1) = false ∧ exceptOk (re2 2) = false) →
      compensateOrder ce re2 (some o) =
        [Action.place o.symbol (rollbackSide o.symbol) "MARKET" o.quantity,
         Action.sleep 1000,
         Action.place o.symbol (rollbackSide o.symbol) "MARKET" o.quantity,
         Action.sleep 1000,
         Action.place o.symbol (rollbackSide o.symbol) "MARKET" o.quantity,
         Action.sleep 1000,
         Action.notify "ロールバック失敗: 反対売買エラー"]) := by
  constructor
  · rintro ⟨h0, h1, h2⟩
    rcases (exceptOk_false_iff _).mp h0 with ⟨m0, e0⟩
    rcases (exceptOk_false_iff _).mp h1 with ⟨m1, e1⟩
    rcases (exceptOk_true_iff _).mp h2 with ⟨r2, e2⟩
    rw [compensateOrder_filledBuy ce re1 o hs hb hq]
    simp [reversalLoop, e0, e1, e2]
  · rintro ⟨h0, h1, h2⟩
    rcases (exceptOk_false_iff _).mp h0 with ⟨m0, e0⟩
    rcases (exceptOk_false_iff _).mp h1 with ⟨m1, e1⟩
    rcases (exceptOk_false_iff _).mp h2 with ⟨m2, e2⟩
    rw [compensateOrder_filledBuy ce re2 o hs hb hq]
    simp [reversalLoop, e0, e1, e2]

/-- C6 witness: the general theorem applied to a concrete FILLED BUY leg,
with the oracle twoFail (two transport failures then a response) and the
oracle allFail (three transport failures). -/
theorem c6_reversal_retry_witness :
    oFilledBuy.status = "FILLED" ∧ oFilledBuy.side = "BUY" ∧
    oFilledBuy.quantity.gt0 = true ∧
    (((exceptOk (twoFail 0) = false ∧ exceptOk (twoFail 1) = false ∧
        exceptOk (twoFail 2) = true) →
      compensateOrder noCancelErr twoFail (some oFilledBuy) =
        [Action.place oFilledBuy.symbol (rollbackSide oFilledBuy.symbol) "MARKET"
           oFilledBuy.quantity,
         Action.sleep 1000,
         Action.place oFilledBuy.symbol (rollbackSide oFilledBuy.symbol) "MARKET"
           oFilledBuy.quantity,
         Action.sleep 1000,
         Action.place oFilledBuy.symbol (rollbackSide oFilledBuy.symbol) "MARKET"
           oFilledBuy.quantity]) ∧
     ((exceptOk (allFail 0) = false ∧ exceptOk (allFail 1) = false ∧
        exceptOk (allFail 2) = false) →
      compensateOrder noCancelErr allFail (some oFilledBuy) =
        [Action.place oFilledBuy.symbol (rollbackSide oFilledBuy.symbol) "MARKET"
           oFilledBuy.quantity,
         Action.sleep 1000,
         Action.place oFilledBuy.symbol (rollbackSide oFilledBuy.symbol) "MARKET"
           oFilledBuy.quantity,
         Action.sleep 1000,
         Action.place oFilledBuy.symbol (rollbackSide oFilledBuy.symbol) "MARKET"
           oFilledBuy.quantity,
         Action.sleep 1000,
         Action.notify "ロールバック失敗: 反対売買エラー"])) :=
  ⟨rfl, rfl, gt0_fin_two,
    c6_reversal_retry noCancelErr twoFail allFail oFilledBuy rfl rfl gt0_fin_two⟩

/-- C10: a reversal attempt counts as successful exactly when the
placeOrder call returns without a transport error: the notification is
suppressed if and only if one of the three attempts returns err == nil,
whatever OrderResponse it carries; in particular a first attempt returning
any response r (for instance status REJECTED) ends the retry loop at once
with no notification. -/
theorem c10_success_is_nil_error (ce : Int → String → Bool)
    (re : Nat → Except String OrderResponse) (o : OrderResponse)
    (hs : o.status = "FILLED") (hb : o.side = "BUY") (hq : o.quantity.gt0 = true) :
    (((compensateOrder ce re (some o)).countP Action.isNotify = 0) ↔
        (exceptOk (re 0) || exceptOk (re 1) || exceptOk (re 2)) = true) ∧
    (∀ r, re 0 = Except.ok r →
        compensateOrder ce re (some o) =
          [Action.place o.symbol (rollbackSide o.symbol) "MARKET" o.quantity]) := by
  constructor
  · rw [compensateOrder_filledBuy ce re o hs hb hq, List.countP_append,
      (reversalLoop_no_notify_cancel re o.symbol (rollbackSide o.symbol) o.quantity 3 0).1,
      reversalLoop_fst]
    by_cases hr : (exceptOk (re 0) || exceptOk (re 1) || exceptOk (re 2)) = true
    · simp [hr, Action.isNotify]
    · simp [hr, Action.isNotify]
  · intro r h0
    rw [compensateOrder_filledBuy ce re o hs hb hq]
    simp [reversalLoop, h0]

/-- C10 witness: a first attempt whose response reports status REJECTED
still ends the retry loop as a success and suppresses the notification. -/
theorem c10_success_is_nil_error_witness :
    oFilledBuy.status = "FILLED" ∧ oFilledBuy.side = "BUY" ∧
    oFilledBuy.quantity.gt0 = true ∧
    ((((compensateOrder noCancelErr allOkRejected
          (some oFilledBuy)).countP Action.isNotify = 0) ↔
        (exceptOk (allOkRejected 0) ||
         exceptOk (allOkRejected 1) ||
         exceptOk (allOkRejected 2)) = true) ∧
     (∀ r, allOkRejected 0 = Except.ok r →
        compensateOrder noCancelErr allOkRejected (some oFilledBuy) =
          [Action.place oFilledBuy.symbol (rollbackSide oFilledBuy.symbol) "MARKET"
             oFilledBuy.quantity])) :=
  ⟨rfl, rfl, gt0_fin_two,
    c10_success_is_nil_error noCancelErr allOkRejected oFilledBuy
      rfl rfl gt0_fin_two⟩

/-! Helper lemmas about the rollback loop and its per-slot traces. -/

lemma rollbackTracesFrom_getElem? (ce : Int → String → Bool)
    (re : Nat → Nat → Except String OrderResponse) :
    ∀ (os : List (Option OrderResponse)) (k j : Nat),
      (rollbackTracesFrom ce re k os)[j]? =
        os[j]?.map (fun o => compensateOrder ce (re (k + j)) o) := by
  intro os
  induction os with
  | nil => intro k j; simp [rollbackTracesFrom]
  | cons o rest ih =>
      intro k j
      cases j with
      | zero => simp [rollbackTracesFrom]
      | succ n =>
          have hkn : k + 1 + n = k + (n + 1) := by omega
          simp [rollbackTracesFrom, ih (k + 1) n, hkn]

/-- The per-slot trace of rollback at index j is the compensation of slot j
under oracle re j, independent of every other slot. -/
lemma rollbackTraces_getElem? (ce : Int → String → Bool)
    (re : Nat → Nat → Except String OrderResponse)
    (os : List (Option OrderResponse)) (j : Nat) :
    (rollbackTraces ce re os)[j]? =
      os[j]?.map (fun o => compensateOrder ce (re j) o) := by
  have h := rollbackTracesFrom_getElem? ce re os 0 j
  simpa [rollbackTraces] using h

lemma rollbackTraces_length (ce : Int → String → Bool)
    (re : Nat → Nat → Except String OrderResponse) :
    ∀ (os : List (Option OrderResponse)), (rollbackTraces ce re os).length = os.length := by
  have hgen : ∀ (os : List (Option OrderResponse)) (k : Nat),
      (rollbackTracesFrom ce re k os).length = os.length := by
    intro os
    induction os with
    | nil => intro k; simp [rollbackTracesFrom]
    | cons o rest ih => intro k; simp [rollbackTracesFrom, ih (k + 1)]
  intro os
  simpa [rollbackTraces] using hgen os 0

/-- The cancel actions of the compensation of a non-FILLED present result:
exactly the one cancel of that order. -/
lemma compensateOrder_notFilled_filter (ce : Int → String → Bool)
    (re : Nat → Except String OrderResponse) (o : OrderResponse)
    (hs : o.status ≠ "FILLED") :
    (compensateOrder ce re (some o)).filter Action.isCancel =
      [Action.cancel o.orderID o.symbol] := by
  by_cases hc : ce o.orderID o.symbol <;>
    simp [compensateOrder, hs, hc, Action.isCancel]

/-- The compensation trace of a FILLED result contains no cancel. -/
lemma compensateOrder_filled_noCancel (ce : Int → String → Bool)
    (re : Nat → Except String OrderResponse) (o : OrderResponse)
    (hs : o.status = "FILLED") :
    (compensateOrder ce re (some o)).filter Action.isCancel = [] := by
  by_cases hb : o.side = "BUY" ∧ o.quantity.gt0 = true
  · rw [compensateOrder_filledBuy ce re o hs hb.1 hb.2, List.filter_append,
      (reversalLoop_no_notify_cancel re o.symbol (rollbackSide o.symbol) o.quantity 3 0).2]
    by_cases hr : (reversalLoop re o.symbol (rollbackSide o.symbol) o.quantity 3 0).1 <;>
      simp [hr, Action.isCancel]
  · simp [compensateOrder, hs, hb]

/-- The compensation trace of a FILLED BUY result with positive quantity
contains between one and three placement attempts. -/
lemma compensateOrder_filledBuy_placeCount (ce : Int → String → Bool)
    (re : Nat → Except String OrderResponse) (o : OrderResponse)
    (hs : o.status = "FILLED") (hb : o.side = "BUY") (hq : o.quantity.gt0 = true) :
    1 ≤ (compensateOrder ce re (some o)).countP Action.isPlace ∧
    (compensateOrder ce re (some o)).countP Action.isPlace ≤ 3 := by
  rw [compensateOrder_filledBuy ce re o hs hb hq, List.countP_append]
  obtain ⟨hle, hpos⟩ :=
    reversalLoop_placeCount re o.symbol (rollbackSide o.symbol) o.quantity 3 0
  have hz : (if (reversalLoop re o.symbol (rollbackSide o.symbol) o.quantity 3 0).1
      then ([] : List Action)
      else [Action.notify "ロールバック失敗: 反対売買エラー"]).countP Action.isPlace = 0 := by
    by_cases hr : (reversalLoop re o.symbol (rollbackSide o.symbol) o.quantity 3 0).1 <;>
      simp [hr, Action.isPlace]
  rw [hz]
  exact ⟨by simpa using hpos (by norm_num), by omega⟩

/-- C1 counterexample: the execution whose per-leg results are a FILLED
SELL leg and an absent (nil) second leg is a failed execution, yet rollback
issues no action at all: the FILLED leg gets no reversal (its side is not
BUY) and the absent leg gets no cancel (nil slots are skipped), refuting
the per-leg exactly-once reversal/cancel claim. -/
theorem c1_counterexample :
    rollback noCancelErr allRevFail [some oFilledSell, none] = [] := rfl

/-- C1 amended: rollback walks the slots in order, each slot's trace a
function of that slot and its own oracle only; a nil slot yields no action;
a present non-FILLED result yields exactly one cancel, of that order's id
and symbol; a present FILLED result yields no cancel, and gets a reversal
attempt sequence of one to three placements when its side is BUY with
positive quantity and no action at all otherwise (in particular a FILLED
SELL leg is never compensated). -/
theorem c1_amended (ce : Int → String → Bool)
    (re : Nat → Nat → Except String OrderResponse)
    (os : List (Option OrderResponse)) (j : Nat) :
    (rollbackTraces ce re os).length = os.length ∧
    (os[j]? = some none → (rollbackTraces ce re os)[j]? = some []) ∧
    (∀ o, os[j]? = some (some o) → o.status ≠ "FILLED" →
      ((rollbackTraces ce re os)[j]?.getD []).filter Action.isCancel =
        [Action.cancel o.orderID o.symbol]) ∧
    (∀ o, os[j]? = some (some o) → o.status = "FILLED" →
      ((rollbackTraces ce re os)[j]?.getD []).filter Action.isCancel = [] ∧
      (o.side = "BUY" → o.quantity.gt0 = true →
        1 ≤ ((rollbackTraces ce re os)[j]?.getD []).countP Action.isPlace ∧
        ((rollbackTraces ce re os)[j]?.getD []).countP Action.isPlace ≤ 3) ∧
      (¬(o.side = "BUY" ∧ o.quantity.gt0 = true) →
        (rollbackTraces ce re os)[j]? = some [])) ∧
    (∀ os2 : List (Option OrderResponse), os[j]? = os2[j]? →
      (rollbackTraces ce re os)[j]? = (rollbackTraces ce re os2)[j]?) := by
  refine ⟨rollbackTraces_length ce re os, ?_, ?_, ?_, ?_⟩
  · intro h
    rw [rollbackTraces_getElem? ce re os j, h]
    rfl
  · intro o h hs
    rw [rollbackTraces_getElem? ce re os j, h]
    simpa using compensateOrder_notFilled_filter ce (re j) o hs
  · intro o h hs
    refine ⟨?_, ?_, ?_⟩
    · rw [rollbackTraces_getElem? ce re os j, h]
      simpa using compensateOrder_filled_noCancel ce (re j) o hs
    · intro hb hq
      rw [rollbackTraces_getElem? ce re os j, h]
      simpa using compensateOrder_filledBuy_placeCount ce (re j) o hs hb hq
    · intro hc
      rw [rollbackTraces_getElem? ce re os j, h]
      simp [compensateOrder, hs, hc]
  · intro os2 h
    rw [rollbackTraces_getElem? ce re os j, rollbackTraces_getElem? ce re os2 j, h]

/-- C1 witness: the amended per-slot characterisation applied to a concrete
result set holding a cancellable OPEN leg, a reversible FILLED BUY leg and
a nil slot. -/
theorem c1_amended_witness :
    ([some oFilledBuy, none][1]? = some none →
      (rollbackTraces noCancelErr allRevFail [some oFilledBuy, none])[1]? = some []) ∧
    (∀ o, [some oFilledBuy, none][1]? = some (some o) → o.status ≠ "FILLED" →
      ((rollbackTraces noCancelErr allRevFail [some oFilledBuy, none])[1]?.getD
        []).filter Action.isCancel = [Action.cancel o.orderID o.symbol]) :=
  ⟨((c1_amended noCancelErr allRevFail [some oFilledBuy, none] 1).2).1,
   ((c1_amended noCancelErr allRevFail [some oFilledBuy, none] 1).2).2.1⟩

/-- C2 counterexample: with one leg reporting before the deadline and the
other two never reporting, the aggregation select loop blocks forever,
because time.After delivers exactly one event; and in the two-report,
one-stuck run the unresolved leg's slot is nil, which rollback skips:
the per-slot trace at index 2 is empty, so compensation is not triggered
for all three legs. -/
theorem c2_counterexample :
    aggregate [true] = none ∧
    (rollbackTraces noCancelErr allRevFail
      [some oFilledBuy, some oFilled2, none])[2]? = some [] := by
  refine ⟨rfl, ?_⟩
  rw [rollbackTraces_getElem?]
  rfl

/-- C2 amended: when exactly two legs report before the deadline (the third
never resolving), the aggregation loop does terminate, with overall outcome
failure, by consuming the single timeout event; when all three report it
terminates with the conjunction of the three leg outcomes; but the
unresolved leg reaches rollback as a nil slot whose trace is empty (no
compensation for it), and when two or more legs never report the loop
blocks forever. -/
theorem c2_amended (a b : Bool) (ce : Int → String → Bool)
    (re : Nat → Nat → Except String OrderResponse) (l1 l2 : Option OrderResponse) :
    aggregate [a, b] = some false ∧
    (∀ c : Bool, aggregate [a, b, c] = some (a && b && c)) ∧
    (rollbackTraces ce re [l1, l2, none])[2]? = some [] ∧
    aggregate [a] = none ∧
    aggregate [] = none := by
  refine ⟨rfl, ?_, ?_, rfl, rfl⟩
  · intro c
    simp [aggregate, aggregateGo]
  · rw [rollbackTraces_getElem?]
    rfl

/-- C3 counterexample: a 500 response with an undecodable body is returned
by placeOrder as a zero-valued OrderResponse with a nil error, refuting the
claim that any non-2xx response or malformed body surfaces as an error. -/
theorem c3_counterexample :
    placeOrder (fun _ => none) (HTTPOutcome.response 500 "not json") =
      Except.ok zeroOrder := rfl

/-- C3 amended: placeOrder surfaces an error exactly for transport
failures; on any HTTP response, whatever its status code, it returns
success carrying the decoded body, or the zero-valued OrderResponse when
the body does not decode. -/
theorem c3_amended (decodeBody : String → Option OrderResponse) (out : HTTPOutcome) :
    ((∃ m, placeOrder decodeBody out = Except.error m) ↔
        (∃ m, out = HTTPOutcome.transportError m)) ∧
    (∀ code body, placeOrder decodeBody (HTTPOutcome.response code body) =
        Except.ok ((decodeBody body).getD zeroOrder)) := by
  constructor
  · cases out <;> simp [placeOrder]
  · intro code body
    rfl

/-- C4 counterexample: a parsed forward signal whose prices map is empty
(so both required pair symbols are missing) still dispatches all three
orders, each with quantity +Inf (the missing prices read as zero and the
budget is divided by zero), refuting the claim that the iteration is
aborted without placing any order. -/
theorem c4_counterexample :
    dispatchedLegs (signalIteration (QueueRead.value "sig") parseNoPrices) =
      [⟨"BTCUSDT", "BUY", GoFloat.inf true⟩, ⟨"ETHBTC", "BUY", GoFloat.inf true⟩,
       ⟨"ETHUSDT", "SELL", GoFloat.inf true⟩] := by
  have hq : GoFloat.div (GoFloat.fin 100000) (GoFloat.fin 0) = GoFloat.inf true := by
    norm_num [GoFloat.div]
  simp [signalIteration, dispatchedLegs, parseNoPrices, sigNoPrices, legSpecs, priceOf, hq,
    GoFloat.div]
  norm_num

/-- C4 amended: when the forward direction's first required pair symbol
BTC/USDT is absent from the prices map and the profit rate clears the
threshold, the iteration is not aborted: all three legs are dispatched, the
first with quantity +Inf obtained by dividing the budget by the missing
price's zero value (the process does not crash, but no abort happens
either). -/
theorem c4_amended (parse : String → Signal) (s : String)
    (hd : (parse s).direction = "順方向")
    (hm : (parse s).prices.lookup "BTC/USDT" = none)
    (hr : (1 / 10 : ℚ) < (parse s).profitRate) :
    (dispatchedLegs (signalIteration (QueueRead.value s) parse)).length = 3 ∧
    (dispatchedLegs (signalIteration (QueueRead.value s) parse)).map LegSpec.quantity =
      [GoFloat.inf true,
       GoFloat.div (GoFloat.inf true) (priceOf (parse s).prices "ETH/BTC"),
       GoFloat.div (GoFloat.inf true) (priceOf (parse s).prices "ETH/BTC")] := by
  have h1 : priceOf (parse s).prices "BTC/USDT" = GoFloat.fin 0 := by
    simp [priceOf, hm]
  have hq1 : GoFloat.div (GoFloat.fin 100000) (priceOf (parse s).prices "BTC/USDT") =
      GoFloat.inf true := by
    rw [h1]
    norm_num [GoFloat.div]
  have hr2 : (10 : ℚ)⁻¹ < (parse s).profitRate := by rwa [one_div] at hr
  constructor
  · simp [signalIteration, dispatchedLegs, legSpecs, hd, hr2]
  · simp [signalIteration, dispatchedLegs, legSpecs, hd, hr2, hq1]

/-- C4 witness: the amended statement at the concrete empty-prices forward
signal. -/
theorem c4_amended_witness :
    (parseNoPrices "sig").direction = "順方向" ∧
    (parseNoPrices "sig").prices.lookup "BTC/USDT" = none ∧
    (1 / 10 : ℚ) < (parseNoPrices "sig").profitRate ∧
    ((dispatchedLegs (signalIteration (QueueRead.value "sig") parseNoPrices)).length = 3 ∧
     (dispatchedLegs (signalIteration (QueueRead.value "sig") parseNoPrices)).map
        LegSpec.quantity =
      [GoFloat.inf true,
       GoFloat.div (GoFloat.inf true) (priceOf (parseNoPrices "sig").prices "ETH/BTC"),
       GoFloat.div (GoFloat.inf true) (priceOf (parseNoPrices "sig").prices "ETH/BTC")]) :=
  ⟨rfl, rfl, by norm_num [parseNoPrices, sigNoPrices],
   c4_amended parseNoPrices "sig" rfl rfl (by norm_num [parseNoPrices, sigNoPrices])⟩

/-- C7: the leg orchestrator is invoked, and orders dispatched, exactly
when the parsed signal's profit rate strictly exceeds the 0.1 threshold;
an empty-queue or read-error iteration dispatches nothing. -/
theorem c7_threshold (parse : String → Signal) (s e : String) :
    (dispatchedLegs (signalIteration (QueueRead.value s) parse) ≠ [] ↔
        (1 / 10 : ℚ) < (parse s).profitRate) ∧
    dispatchedLegs (signalIteration QueueRead.nilResult parse) = [] ∧
    dispatchedLegs (signalIteration (QueueRead.readError e) parse) = [] := by
  refine ⟨?_, rfl, rfl⟩
  by_cases h : (1 / 10 : ℚ) < (parse s).profitRate
  · have h2 : (10 : ℚ)⁻¹ < (parse s).profitRate := by rwa [one_div] at h
    by_cases hd : (parse s).direction = "順方向" <;>
      simp [signalIteration, dispatchedLegs, legSpecs, h, h2, hd]
  · have h2 : ¬(10 : ℚ)⁻¹ < (parse s).profitRate := by rwa [one_div] at h
    simp [signalIteration, dispatchedLegs, h, h2]

/-- C8: for the forward direction with prices 50000 (BTC/USDT) and 0.05
(ETH/BTC) and the fixed notional budget 100000, leg 1's quantity is
100000/50000 = 2 and legs 2 and 3 carry exactly that intermediate value
divided by the ETH/BTC price, 40; in general the three legs are computed
by exactly those formulas from the signal's own price snapshot, and two
signals with the same snapshot and direction yield identical legs (no
independent re-fetch of price can influence the result). -/
theorem c8_quantities :
    legSpecs sigC8 =
      [⟨"BTCUSDT", "BUY", GoFloat.fin 2⟩, ⟨"ETHBTC", "BUY", GoFloat.fin 40⟩,
       ⟨"ETHUSDT", "SELL", GoFloat.fin 40⟩] ∧
    (∀ sig : Signal, sig.direction = "順方向" →
      legSpecs sig =
        [⟨"BTCUSDT", "BUY",
           GoFloat.div (GoFloat.fin 100000) (priceOf sig.prices "BTC/USDT")⟩,
         ⟨"ETHBTC", "BUY",
           GoFloat.div (GoFloat.div (GoFloat.fin 100000) (priceOf sig.prices "BTC/USDT"))
             (priceOf sig.prices "ETH/BTC")⟩,
         ⟨"ETHUSDT", "SELL",
           GoFloat.div (GoFloat.div (GoFloat.fin 100000) (priceOf sig.prices "BTC/USDT"))
             (priceOf sig.prices "ETH/BTC")⟩]) ∧
    (∀ sig1 sig2 : Signal, sig1.prices = sig2.prices → sig1.direction = sig2.direction →
      legSpecs sig1 = legSpecs sig2) := by
  have hfwd : ∀ sig : Signal, sig.direction = "順方向" →
      legSpecs sig =
        [⟨"BTCUSDT", "BUY",
           GoFloat.div (GoFloat.fin 100000) (priceOf sig.prices "BTC/USDT")⟩,
         ⟨"ETHBTC", "BUY",
           GoFloat.div (GoFloat.div (GoFloat.fin 100000) (priceOf sig.prices "BTC/USDT"))
             (priceOf sig.prices "ETH/BTC")⟩,
         ⟨"ETHUSDT", "SELL",
           GoFloat.div (GoFloat.div (GoFloat.fin 100000) (priceOf sig.prices "BTC/USDT"))
             (priceOf sig.prices "ETH/BTC")⟩] := by
    intro sig hd
    simp [legSpecs, hd]
  refine ⟨?_, hfwd, ?_⟩
  · have h1 : priceOf sigC8.prices "BTC/USDT" = GoFloat.fin 50000 := rfl
    have h2 : priceOf sigC8.prices "ETH/BTC" = GoFloat.fin (1 / 20) := rfl
    have hq1 : GoFloat.div (GoFloat.fin 100000) (GoFloat.fin 50000) = GoFloat.fin 2 := by
      norm_num [GoFloat.div]
    have hq2 : GoFloat.div (GoFloat.fin 2) (GoFloat.fin (1 / 20)) = GoFloat.fin 40 := by
      norm_num [GoFloat.div]
    rw [hfwd sigC8 rfl, h1, h2, hq1, hq2]
  · intro sig1 sig2 hp hd
    simp [legSpecs, hp, hd]

/-- C9 counterexample: a queue read error produces only the log line and no
sleep at all, while the empty-queue case sleeps the 50 ms backoff: the
error path does not share the empty-queue backoff, refuting the claim. -/
theorem c9_counterexample :
    signalIteration (QueueRead.readError "boom") parseNoPrices =
      [LoopStep.logMsg "Redisエラー"] ∧
    signalIteration QueueRead.nilResult parseNoPrices = [LoopStep.sleepMs 50] :=
  ⟨rfl, rfl⟩

/-- C9 amended: a queue read error is logged and the loop retries
immediately, with no backoff (the continue statement skips even the
bottom-of-loop 50 ms sleep), while the empty-queue case sleeps 50 ms; the
error is never fatal, the iteration always continuing to the next one. -/
theorem c9_amended (e : String) (parse : String → Signal) :
    signalIteration (QueueRead.readError e) parse = [LoopStep.logMsg "Redisエラー"] ∧
    (signalIteration (QueueRead.readError e) parse).countP LoopStep.isSleep = 0 ∧
    signalIteration QueueRead.nilResult parse = [LoopStep.sleepMs 50] := by
  refine ⟨rfl, ?_, rfl⟩
  simp [signalIteration, LoopStep.isSleep]

end Arb
